import Mathlib

/-!
Verification of the Session Engagement Engine of the honeypot webhook
service (`src/main.py`).  The Python source is shallowly embedded: each
source function becomes an executable Lean definition over `List Char` /
`String`, the four `INTEL_PATTERNS` regexes become hand-translated
matchers with Python `re.findall` scanning semantics, and the webhook
handler becomes a pure state-transition function on a session record.
-/

namespace Honeypot

/-! ## Character classes and Python string helpers -/

/-- Python whitespace as used by `str.strip` and the regex class `\s`:
space, tab, newline, carriage return, vertical tab, form feed. -/
def pyIsSpace (c : Char) : Bool :=
  c = ' ' || c = '\t' || c = '\n' || c = '\r' || c = '\x0b' || c = '\x0c'

/-- Python `str.strip()` on a character list. -/
def stripList (l : List Char) : List Char :=
  ((l.dropWhile pyIsSpace).reverse.dropWhile pyIsSpace).reverse

/-- Python `str.strip()`. -/
def pyStrip (s : String) : String := String.mk (stripList s.data)

/-- Python `str.lower()` (ASCII-relevant part). -/
def pyLower (s : String) : String := String.mk (s.data.map Char.toLower)

/-- Python substring test `needle in haystack`. -/
def containsSub (n : List Char) (h : List Char) : Bool :=
  n.isPrefixOf h ||
    match h with
    | [] => false
    | _ :: t => containsSub n t

/-- Regex `\w`: letters, digits and underscore. -/
def isWordCh (c : Char) : Bool := c.isAlphanum || c = '_'

/-- Character class `[a-zA-Z0-9.\-_]` of the UPI-id pattern's local part. -/
def isUpiLocal (c : Char) : Bool := c.isAlphanum || c = '.' || c = '-' || c = '_'

/-- Separator class `[\-\s]` of the phone pattern. -/
def isPhoneSep (c : Char) : Bool := c = '-' || pyIsSpace c

/-- Host characters `[-\w.]` of the URL pattern. -/
def isHostCh (c : Char) : Bool := isWordCh c || c = '-' || c = '.'

/-- Hex digit class `[\da-fA-F]`. -/
def isHexCh (c : Char) : Bool :=
  c.isDigit || ('a' ≤ c && c ≤ 'f') || ('A' ≤ c && c ≤ 'F')

/-- Path character class `[-\w._~:/?#[\]@!$&'()*+,;=]` of the URL pattern
(the apostrophe is code point 39). -/
def isPathCh (c : Char) : Bool :=
  isWordCh c ||
    c ∈ (['-', '.', '_', '~', ':', '/', '?', '#', '[', ']',
          '@', '!', '$', '&', '(', ')', '*', '+', ',', ';', '='] : List Char) ||
    c.toNat = 39

/-! ## The four `INTEL_PATTERNS` matchers

Each matcher takes the character preceding the current position (for word
boundaries `\b`) and the remaining input; it returns `some (match, rest)`
when the Python regex matches at this position, mirroring the greedy /
backtracking behaviour of the pattern.  All four patterns only match
non-empty strings. -/

/-- Matcher for `upiIds`: `[a-zA-Z0-9.\-_]{2,256}@[a-zA-Z]{2,64}`.
The local-part class excludes `@`, so the greedy local part is the maximal
run (backtracking cannot move the `@`); the provider part is the maximal
alphabetic run capped at 64. -/
def upiMatch (_ : Option Char) (s : List Char) : Option (List Char × List Char) :=
  let loc := s.takeWhile isUpiLocal
  let rest1 := s.drop loc.length
  if 2 ≤ loc.length ∧ loc.length ≤ 256 then
    match rest1 with
    | '@' :: rest2 =>
      let prov := rest2.takeWhile Char.isAlpha
      if 2 ≤ prov.length then
        let pt := prov.take 64
        some (loc ++ '@' :: pt, rest2.drop pt.length)
      else none
    | _ => none
  else none

/-- Matcher for `bankAccounts`: `\b\d{9,18}\b`.  Both boundaries force the
digit run to be maximal, so the pattern matches exactly when the maximal
digit run at a non-word-preceded position has length 9–18 and is not
followed by a word character. -/
def bankMatch (prev : Option Char) (s : List Char) : Option (List Char × List Char) :=
  if (prev.map isWordCh).getD false then none
  else
    let ds := s.takeWhile Char.isDigit
    let rest := s.drop ds.length
    if 9 ≤ ds.length ∧ ds.length ≤ 18 ∧ ((rest.head?.map isWordCh).getD false) = false then
      some (ds, rest)
    else none

/-- The mandatory part `[6-9]\d{9}` of the phone pattern. -/
def phoneCore (s : List Char) : Option (List Char × List Char) :=
  match s with
  | c :: rest =>
    if '6' ≤ c ∧ c ≤ '9' then
      let ds := rest.take 9
      if ds.length = 9 ∧ ds.all Char.isDigit then some (c :: ds, rest.drop 9)
      else none
    else none
  | [] => none

/-- Matcher for `phoneNumbers`: `(?:\+91[\-\s]?)?[6-9]\d{9}` (no word
boundaries).  The optional `+91` prefix with optional separator is tried
greedily; if its continuation fails, the empty alternative starts at `+`,
which is not in `[6-9]`, so the whole match fails. -/
def phoneMatch (_ : Option Char) (s : List Char) : Option (List Char × List Char) :=
  match s with
  | '+' :: '9' :: '1' :: rest =>
    (match rest with
     | c :: rest2 =>
       if isPhoneSep c then
         match phoneCore rest2 with
         | some (m, r) => some ('+' :: '9' :: '1' :: c :: m, r)
         | none => none
       else
         match phoneCore rest with
         | some (m, r) => some ('+' :: '9' :: '1' :: m, r)
         | none => none
     | [] => none)
  | _ => phoneCore s

/-- Greedy consumption of `(?:[-\w.]|(?:%[\da-fA-F]{2}))+` (URL host part).
Fuel-bounded; each step consumes at least one character. -/
def hostTake : Nat → List Char → (List Char × List Char)
  | 0, s => ([], s)
  | _, [] => ([], [])
  | n + 1, c :: rest =>
    if isHostCh c then
      let (h, r) := hostTake n rest
      (c :: h, r)
    else if c = '%' then
      match rest with
      | h1 :: h2 :: rest2 =>
        if isHexCh h1 && isHexCh h2 then
          let (h, r) := hostTake n rest2
          (c :: h1 :: h2 :: h, r)
        else ([], c :: rest)
      | _ => ([], c :: rest)
    else ([], c :: rest)

/-- Matcher for `phishingLinks`:
`https?://(?:[-\w.]|(?:%[\da-fA-F]{2}))+(?:/[-\w._~:/?#[\]@!$&'()*+,;=]*)?`. -/
def linkMatch (_ : Option Char) (s : List Char) : Option (List Char × List Char) :=
  match s with
  | 'h' :: 't' :: 't' :: 'p' :: rest =>
    let (scheme, rest1) :=
      match rest with
      | 's' :: r => (['h', 't', 't', 'p', 's'], r)
      | _ => (['h', 't', 't', 'p'], rest)
    (match rest1 with
     | ':' :: '/' :: '/' :: rest2 =>
       let (host, rest3) := hostTake rest2.length rest2
       if host.length = 0 then none
       else
         match rest3 with
         | '/' :: rest4 =>
           let path := rest4.takeWhile isPathCh
           some (scheme ++ [':', '/', '/'] ++ host ++ '/' :: path, rest4.drop path.length)
         | _ => some (scheme ++ [':', '/', '/'] ++ host, rest3)
     | _ => none)
  | _ => none

/-- Scanning as in `re.findall`: try the matcher at every position left to right;
on a match, emit it and resume after it (all four patterns match only
non-empty strings, so the fuel `s.length` is sufficient). -/
def findallAux (m : Option Char → List Char → Option (List Char × List Char)) :
    Nat → Option Char → List Char → List String
  | 0, _, _ => []
  | _, _, [] => []
  | fuel + 1, prev, c :: rest =>
    match m prev (c :: rest) with
    | some (mt, rem) => String.mk mt :: findallAux m fuel mt.getLast? rem
    | none => findallAux m fuel (some c) rest

/-- Run `re.findall(pattern, s)` for one of the four matchers. -/
def findall (m : Option Char → List Char → Option (List Char × List Char))
    (s : List Char) : List String :=
  findallAux m s.length none s

/-! ## Vocabulary lists from the source -/

/-- The `SCAM_TRIGGERS` list from `src/main.py`. -/
def SCAM_TRIGGERS : List String :=
  ["block", "suspend", "expiry", "expire", "immediate", "urgent", "24 hours", "terminate",
   "disconnect", "lapse", "deactivate", "ban", "invalid", "alert", "attention", "warn",
   "kyc", "pan", "pan card", "aadhaar", "adhar", "update", "verify", "verification",
   "account", "bank", "sbi", "hdfc", "icici", "axis", "pnb", "atm", "debit", "credit",
   "wallet", "refund", "cashback", "bonus", "credited", "debited", "reversal", "unpaid",
   "due", "overdue", "statement", "charge", "deducted", "bill", "invoice",
   "otp", "pin", "password", "cvv", "m-pin", "mpin", "login", "credential", "sign in",
   "log in", "reset", "code", "auth",
   "lottery", "winner", "won", "prize", "gift", "lucky", "congratulations", "crore",
   "lakh", "million", "dollar", "job", "hiring", "salary", "income", "investment",
   "profit", "loan", "approved", "interest", "offer", "discount", "free", "claim",
   "police", "cbi", "rbi", "court", "case", "fir", "jail", "arrest", "warrant", "legal",
   "tax", "income tax", "customs", "seized", "penalty", "fine", "illegal", "department",
   "officer", "inspector", "cyber",
   "click", "link", "visit", "download", "install", "apk", "app", "support", "customer care",
   "helpline", "contact", "call", "whatsapp", "message", "sms", "bit.ly", "tinyurl"]

/-- The `FALLBACK_REPLIES` pool from `src/main.py`. -/
def FALLBACK_REPLIES : List String :=
  ["Beta, my line is breaking up. Can you say that loudly?",
   "Wait, let me find my reading glasses. Hold on...",
   "I am pressing the button but nothing is happening. Is it the green one?",
   "Sorry, my grandson is calling on the other line. One minute.",
   "Which bank did you say? SBI or HDFC? I have accounts in both.",
   "My screen is very dark. I cannot see the OTP. How do I make it bright?",
   "Are you from the main branch? I went there yesterday.",
   "Hello? Are you still there? I think the signal is lost.",
   "My battery is showing low red line. Let me find the charger.",
   "Is this regarding the pension scheme or the savings account?",
   "I cannot hear you clearly, there is a lot of static.",
   "Can you call me back on the landline? This mobile is acting up.",
   "My spectacles are in the other room. Just a moment.",
   "Why are you asking for this code? Is it safe?",
   "I typed the number but it says 'Invalid Input'. What to do?",
   "Wait, the milk is boiling over! Hold on one second.",
   "I am an old woman, please be patient with me.",
   "Did you say your name was Rahul or Ramesh?",
   "I don't have my passbook with me right now.",
   "Can I go to the ATM and do this? It is near my house.",
   "Beta, the pressure cooker is whistling, I cannot hear you.",
   "Is this Mr. Sharma from the LIC office?",
   "My hands are shaking, I pressed the wrong button I think.",
   "Hold on, my neighbor Mrs. Gupta is at the door.",
   "I am trying to find the message but my inbox is full.",
   "Does this require an internet connection? My wifi is off.",
   "Please speak slowly, my hearing aid is not working well today.",
   "Are you calling about the fixed deposit maturity?",
   "I accidentally deleted the message. Can you send it again?",
   "My phone is very hot, I think it might explode.",
   "Do I need to go to the bank for this?",
   "My son told me not to share numbers with strangers.",
   "Is this about the electricity bill? I already paid it.",
   "Wait, I am looking for a pen to write this down.",
   "The screen is spinning round and round. What does that mean?",
   "Can you talk to my husband? He handles the money.",
   "I am in the middle of my evening prayers. Can you wait?",
   "My phone display is cracked, I cannot read the numbers.",
   "Are you the same person who called yesterday about the lottery?",
   "I don't remember my PIN number. Is it written on the card?",
   "Wait, the cat just jumped on the table!",
   "Can I do this tomorrow morning? It is very late.",
   "My phone is running out of balance.",
   "Is there a charge for this service?",
   "I think I received a message from the police too.",
   "Why is the bank calling from a personal number?",
   "Let me put on my speakerphone.",
   "I am pressing 'OK' but it goes back to the home screen.",
   "Do you know my branch manager, Mr. Patel?",
   "I am confused, which app should I open?",
   "My grandson usually helps me with this. He is in school.",
   "The letters are too small. I cannot read them.",
   "Is this mandatory? Can I opt out?",
   "My account balance is zero anyway.",
   "Wait, I am getting another call.",
   "Can you verify my address first?",
   "I don't have a debit card, only a passbook.",
   "Is this about the gold loan?",
   "My phone fell in water yesterday, the sound is low.",
   "I am eating lunch. Can you call in 1 hour?",
   "Did I win something? Is this a prize?",
   "I am afraid of doing this online. Can I come to the office?",
   "What is an OTP? Is it the 4 digit number?",
   "I think I entered the wrong password 3 times.",
   "The app is asking for an update. Should I click yes?",
   "My screen says 'Loading'. It is stuck.",
   "Can you send me a letter by post instead?",
   "I don't use Google Pay or PhonePe.",
   "My daughter said this might be a scam.",
   "Are you really from the bank? You sound young.",
   "I have to take my medicine now. One second.",
   "The keypad is not coming up on the screen.",
   "I am looking for my reading glasses in the drawer.",
   "Can you repeat the number? I write very slowly.",
   "Is this the same bank that is near the vegetable market?",
   "I don't have my chequebook handy.",
   "Why do you need my date of birth?",
   "My phone is very old, it doesn't have internet.",
   "The TV volume is too high, let me lower it.",
   "I am trying to find the SMS app.",
   "It says 'Network Error'. What should I do?",
   "Can you send the message in Hindi or Tamil?",
   "I am not comfortable sharing this over the phone.",
   "Let me ask my neighbor to help me.",
   "I pressed the red button by mistake.",
   "The phone is slipping from my hand.",
   "I am making tea, just one minute.",
   "Can you hold on? The doorbell is ringing.",
   "I don't understand these English words.",
   "Is this urgent? I was sleeping.",
   "My card is expired I think.",
   "I lost my purse yesterday with the card.",
   "Can I call you back on the official number?",
   "Who is this speaking again?",
   "My memory is very bad these days.",
   "I am trying to unlock my phone.",
   "The touch screen is not working properly.",
   "I am driving, wait.",
   "Are you the manager?",
   "I don't have any money to give you.",
   "Is this a government scheme?",
   "My phone is about to switch off."]

/-! ## Classification helpers -/

/-- Function `get_matched_keywords`: the triggers occurring (as substrings) in the
lowercased text, in list order. -/
def get_matched_keywords (t : List Char) : List String :=
  let lower := t.map Char.toLower
  SCAM_TRIGGERS.filter (fun trig => containsSub trig.data lower)

/-- Function `detect_scam_via_llm`: stubbed out in the source, always `False`. -/
def detect_scam_via_llm (_ : List Char) : Bool := false

/-- Function `is_suspicious`: lexical trigger, URL, or phone-shaped token. -/
def is_suspicious (t : List Char) : Bool :=
  let lower := t.map Char.toLower
  if SCAM_TRIGGERS.any (fun trig => containsSub trig.data lower) then true
  else
    let has_link := !(findall linkMatch t).isEmpty
    let has_phone := !(findall phoneMatch t).isEmpty
    if has_link || has_phone then true else false

/-! ## Extracted intelligence and `scan_for_intel` -/

/-- The `extractedIntelligence` mapping: the four `INTEL_PATTERNS`
categories (in the dict's insertion order) plus `suspiciousKeywords`. -/
structure Intel where
  upiIds : List String
  bankAccounts : List String
  phishingLinks : List String
  phoneNumbers : List String
  suspiciousKeywords : List String

/-- Fresh `extractedIntelligence` created for a new session. -/
def freshIntel : Intel := ⟨[], [], [], [], []⟩

/-- The per-category loop body of `scan_for_intel`: strip each found item
and append it if not already present; the Boolean records whether any
append happened. -/
def addItems : List String → List String → List String × Bool
  | cur, [] => (cur, false)
  | cur, item :: rest =>
    let clean := pyStrip item
    if clean ∈ cur then addItems cur rest
    else ((addItems (cur ++ [clean]) rest).1, true)

/-- Function `scan_for_intel`: run the four patterns over the text in dict order,
deduplicating into the session's intelligence; returns the updated
intelligence and the `updated` flag. -/
def scan_for_intel (t : List Char) (i : Intel) : Intel × Bool :=
  let ru := addItems i.upiIds (findall upiMatch t)
  let ra := addItems i.bankAccounts (findall bankMatch t)
  let rl := addItems i.phishingLinks (findall linkMatch t)
  let rp := addItems i.phoneNumbers (findall phoneMatch t)
  (⟨ru.1, ra.1, rl.1, rp.1, i.suspiciousKeywords⟩, ru.2 || ra.2 || rl.2 || rp.2)

/-! ## The session record and the webhook handler -/

/-- One record of `active_sessions`. -/
structure Session where
  is_scam : Bool
  turns : Nat
  intel : Intel

/-- The record created on a session's first message. -/
def freshSession : Session := ⟨false, 0, freshIntel⟩

/-- Observable outcome of handling one message (besides the new state):
the reply text, whether a report dispatch was scheduled, whether the
generative call was invoked, and the scanner's `new_intel` flag. -/
structure StepOut where
  reply : String
  dispatched : Bool
  genInvoked : Bool
  newIntel : Bool

/-- The keyword-append loop of `handle_webhook` (dedup, preserve order). -/
def addKeywords : List String → List String → List String
  | cur, [] => cur
  | cur, k :: rest => if k ∈ cur then addKeywords cur rest else addKeywords (cur ++ [k]) rest

/-- The post-authorization body of `handle_webhook` for one message on one
session: bump `turns`, flag on lexical triggers, (dead) LLM check, scan
for intelligence, choose the reply, and decide whether to schedule a
report dispatch.  `gen` stands for the text `generate_persona_reply`
would produce when invoked. -/
def processMessage (msg : List Char) (gen : String) (s0 : Session) : Session × StepOut :=
  let s1 : Session := { s0 with turns := s0.turns + 1 }
  let kws := get_matched_keywords msg
  let s2 : Session :=
    if kws.isEmpty then s1
    else { s1 with
           is_scam := true
           intel := { s1.intel with suspiciousKeywords := addKeywords s1.intel.suspiciousKeywords kws } }
  let s3 : Session :=
    if s2.is_scam = false && detect_scam_via_llm msg then
      { s2 with
        is_scam := true
        intel := { s2.intel with
          suspiciousKeywords := s2.intel.suspiciousKeywords ++ ["AI_DETECTED_SUSPICIOUS_CONTENT"] } }
    else s2
  let sc := scan_for_intel msg s3.intel
  let s4 : Session := { s3 with intel := sc.1 }
  let reply := if s4.is_scam then gen else "I am sorry, who is this message for?"
  let dispatched := s4.is_scam && (sc.2 || s4.turns % 5 == 0)
  (s4, ⟨reply, dispatched, s4.is_scam, sc.2⟩)

/-- Fold `processMessage` over a sequence of inbound messages, collecting
the per-turn outcomes. -/
def runMessages (gen : String) : List (List Char) → Session → Session × List StepOut
  | [], s => (s, [])
  | m :: rest, s =>
    let r := processMessage m gen s
    let rr := runMessages gen rest r.1
    (rr.1, r.2 :: rr.2)

/-- The session states after each successive inbound message. -/
def runTrace (gen : String) : List (List Char) → Session → List Session
  | [], _ => []
  | m :: rest, s =>
    let s' := (processMessage m gen s).1
    s' :: runTrace gen rest s'

/-- Number of report dispatches scheduled across a run. -/
def dispatchCount (gen : String) (msgs : List (List Char)) (s : Session) : Nat :=
  ((runMessages gen msgs s).2.filter (·.dispatched)).length

/-- Lookup in `active_sessions`. -/
def lookupS : List (String × Session) → String → Option Session
  | [], _ => none
  | (k, v) :: rest, sid => if k = sid then some v else lookupS rest sid

/-- Update of `active_sessions` (in-place for an existing key, appended for a
new one, as for a Python dict). -/
def insertS : List (String × Session) → String → Session → List (String × Session)
  | [], sid, s => [(sid, s)]
  | (k, v) :: rest, sid, s =>
    if k = sid then (sid, s) :: rest else (k, v) :: insertS rest sid s

/-- Function `handle_webhook`: check the access header first (`401` with the store
untouched on mismatch), then get-or-create the session, process the
message and save.  The successful response is `("success", out)`. -/
def handle_webhook (apiToken xApiKey : Option String) (sessions : List (String × Session))
    (sid : String) (msg : List Char) (gen : String) :
    List (String × Session) × Except Nat (String × StepOut) :=
  if xApiKey ≠ apiToken then (sessions, Except.error 401)
  else
    let s0 := (lookupS sessions sid).getD freshSession
    let r := processMessage msg gen s0
    (insertS sessions sid r.1, Except.ok ("success", r.2))

/-! ## `generate_persona_reply` and the credential pool -/

/-- Outcome of one `generate_content` attempt: generated text, a transient
error (`429`/`403`/`404` in `str(e)`), or any other exception. -/
inductive GenOutcome
  | ok (text : String)
  | errTransient
  | errOther
  deriving DecidableEq

/-- Result of `generate_persona_reply`, instrumented with the number of
`generate_content` attempts made and of 2-second retry sleeps taken. -/
structure GenResult where
  reply : String
  attempts : Nat
  sleeps : Nat

/-- Model of `random.choice(FALLBACK_REPLIES)`: the element at an arbitrary index
(modulo the pool size). -/
def fallbackChoice (i : Nat) : String :=
  FALLBACK_REPLIES.get ⟨i % FALLBACK_REPLIES.length, Nat.mod_lt _ (by decide)⟩

/-- The `for attempt in range(2)` loop of `generate_persona_reply`.
`pool` is `len(API_KEYS)`; `rotate_key` succeeds only when `1 < pool`,
otherwise the code sleeps 2 seconds and retries with the same key.  A
non-transient exception breaks out of the loop to the fallback. -/
def genLoop (pool : Nat) (outcomes : Nat → GenOutcome) (last : String) (fi : Nat) :
    Nat → Nat → Nat → Nat → GenResult
  | 0, _, att, sl => ⟨fallbackChoice fi, att, sl⟩
  | fuel + 1, i, att, sl =>
    match outcomes i with
    | .ok text =>
      let t := pyStrip text
      if pyLower t = pyLower last || t.length < 5 then ⟨fallbackChoice fi, att + 1, sl⟩
      else ⟨t, att + 1, sl⟩
    | .errTransient =>
      if 1 < pool then genLoop pool outcomes last fi fuel (i + 1) (att + 1) sl
      else genLoop pool outcomes last fi fuel (i + 1) (att + 1) (sl + 1)
    | .errOther => ⟨fallbackChoice fi, att + 1, sl⟩

/-- Function `generate_persona_reply`: immediate fallback when `ai_model is None`,
otherwise at most two attempts, each consuming one `outcomes` entry. -/
def generate_persona_reply (aiConfigured : Bool) (pool : Nat) (outcomes : Nat → GenOutcome)
    (fi : Nat) (last : String) : GenResult :=
  if aiConfigured then genLoop pool outcomes last fi 2 0 0 0
  else ⟨fallbackChoice fi, 0, 0⟩

/-- Test whether a `generate_content` attempt raised an exception. -/
def isErr : GenOutcome → Bool
  | .ok _ => false
  | .errTransient => true
  | .errOther => true

/-! ## Helper lemmas -/

/-- Elements already present survive the per-category append loop. -/
theorem addItems_subset (found : List String) (cur : List String) (x : String)
    (hx : x ∈ cur) : x ∈ (addItems cur found).1 := by
  induction found generalizing cur with
  | nil => simpa [addItems] using hx
  | cons item rest ih =>
    by_cases h : pyStrip item ∈ cur
    · simpa [addItems, h] using ih cur hx
    · simp only [addItems, h, if_neg, ite_false]
      exact ih (cur ++ [pyStrip item]) (by simp [hx])

/-- Every found item (after stripping) is present after the append loop. -/
theorem addItems_mem (found : List String) (cur : List String) (item : String)
    (hi : item ∈ found) : pyStrip item ∈ (addItems cur found).1 := by
  induction found generalizing cur with
  | nil => cases hi
  | cons a rest ih =>
    rcases List.mem_cons.mp hi with rfl | hmem
    · by_cases h : pyStrip item ∈ cur
      · simpa [addItems, h] using addItems_subset rest cur (pyStrip item) h
      · simp only [addItems, h, ite_false]
        exact addItems_subset rest (cur ++ [pyStrip item]) (pyStrip item) (by simp)
    · by_cases h : pyStrip a ∈ cur
      · simpa [addItems, h] using ih cur hmem
      · simp only [addItems, h, ite_false]
        exact ih (cur ++ [pyStrip a]) hmem

/-- When every found item is already present, the append loop is the
identity and reports no update. -/
theorem addItems_idem (found : List String) (cur : List String)
    (h : ∀ i ∈ found, pyStrip i ∈ cur) : addItems cur found = (cur, false) := by
  induction found with
  | nil => rfl
  | cons a rest ih =>
    have ha : pyStrip a ∈ cur := h a (List.mem_cons_self a rest)
    simp only [addItems, ha, ite_true]
    exact ih (fun i hi => h i (List.mem_cons_of_mem a hi))

/-- Running the append loop a second time on its own output changes
nothing and reports no update. -/
theorem addItems_twice (cur found : List String) :
    addItems (addItems cur found).1 found = ((addItems cur found).1, false) :=
  addItems_idem found (addItems cur found).1
    (fun i hi => addItems_mem found cur i hi)

/-- Monotonicity of the scam flag over one message. -/
theorem processMessage_is_scam_mono (msg : List Char) (gen : String) (s : Session)
    (h : s.is_scam = true) : (processMessage msg gen s).1.is_scam = true := by
  by_cases hk : (get_matched_keywords msg).isEmpty <;>
    simp [processMessage, hk, detect_scam_via_llm, h]

/-- The retry loop makes at most `fuel` further attempts. -/
theorem genLoop_att_le (pool : Nat) (outcomes : Nat → GenOutcome) (last : String)
    (fi : Nat) : ∀ fuel i att sl,
    (genLoop pool outcomes last fi fuel i att sl).attempts ≤ att + fuel := by
  intro fuel
  induction fuel with
  | zero => intro i att sl; simp [genLoop]
  | succ n ih =>
    intro i att sl
    cases h : outcomes i with
    | ok text =>
      simp only [genLoop, h]
      split <;> simp
    | errTransient =>
      simp only [genLoop, h]
      by_cases hp : 1 < pool
      · rw [if_pos hp]
        have := ih (i + 1) (att + 1) sl
        omega
      · rw [if_neg hp]
        have := ih (i + 1) (att + 1) (sl + 1)
        omega
    | errOther =>
      simp only [genLoop, h]
      show att + 1 ≤ att + (n + 1)
      omega

/-- Every fallback choice is drawn from the pool. -/
theorem fallbackChoice_mem (i : Nat) : fallbackChoice i ∈ FALLBACK_REPLIES :=
  List.get_mem FALLBACK_REPLIES _ _

/-- No reply in the fallback pool is empty. -/
theorem FALLBACK_REPLIES_nonempty : ∀ r ∈ FALLBACK_REPLIES, r ≠ "" := by decide

/-! ## Claims -/

/-- Claim C1, counterexample.  Two inbound messages, both carrying a scam
trigger and fresh intelligence, schedule two report dispatches for the
same session — not exactly one: the code has no `reported` flag and
re-dispatches whenever the session is flagged and new intelligence
arrived (or the turn count is a multiple of 5). -/
theorem two_reports_in_two_turns :
    dispatchCount "ok" ["otp 9876543210".data, "otp 9123456780".data] freshSession ≠ 1 ∧
      dispatchCount "ok" ["otp 9876543210".data, "otp 9123456780".data] freshSession = 2 := by
  decide

/-- Claim C1, amended: a report dispatch is scheduled on exactly the turns
where the session is scam-flagged after classification and either the
scan found new intelligence or the new turn count is a multiple of 5;
several dispatches can occur for one session. -/
theorem report_dispatch_condition (msg : List Char) (gen : String) (s : Session) :
    (processMessage msg gen s).2.dispatched =
      ((processMessage msg gen s).1.is_scam &&
        ((scan_for_intel msg s.intel).2 || (s.turns + 1) % 5 == 0)) := by
  by_cases hk : (get_matched_keywords msg).isEmpty <;>
    simp [processMessage, hk, detect_scam_via_llm, scan_for_intel]

/-- Claim C2, counterexample.  The purely numeric 10-digit mobile-prefixed
string `9876543210` is appended to `bankAccounts` as well as to
`phoneNumbers`: the `\b\d{9,18}\b` account pattern also matches it and
the categories are scanned independently. -/
theorem ten_digit_phone_in_bankAccounts :
    (scan_for_intel ("9876543210".data) freshIntel).1.phoneNumbers = ["9876543210"] ∧
      (scan_for_intel ("9876543210".data) freshIntel).1.bankAccounts = ["9876543210"] := by
  decide

/-- Claim C2, amended: a value matched by the phone pattern is recorded in
`phoneNumbers`, and a value matched by the account pattern is recorded in
`bankAccounts`, independently — phone classification does not exclude the
value from the account category. -/
theorem phone_and_bank_scanned_independently (t : List Char) (i : Intel) (v : String)
    (hp : v ∈ findall phoneMatch t) (hb : v ∈ findall bankMatch t) :
    pyStrip v ∈ (scan_for_intel t i).1.phoneNumbers ∧
      pyStrip v ∈ (scan_for_intel t i).1.bankAccounts := by
  constructor
  · simpa [scan_for_intel] using addItems_mem (findall phoneMatch t) i.phoneNumbers v hp
  · simpa [scan_for_intel] using addItems_mem (findall bankMatch t) i.bankAccounts v hb

/-- Witness for the amended claim C2 at the concrete token `9876543210`. -/
theorem phone_and_bank_scanned_independently_witness :
    "9876543210" ∈ findall phoneMatch ("9876543210".data) ∧
      "9876543210" ∈ findall bankMatch ("9876543210".data) ∧
      (pyStrip "9876543210" ∈ (scan_for_intel ("9876543210".data) freshIntel).1.phoneNumbers ∧
        pyStrip "9876543210" ∈ (scan_for_intel ("9876543210".data) freshIntel).1.bankAccounts) :=
  ⟨by decide, by decide,
    phone_and_bank_scanned_independently ("9876543210".data) freshIntel "9876543210"
      (by decide) (by decide)⟩

/-- Claim C3, counterexample.  A message that is only a URL (no lexical
trigger) is structurally suspicious according to `is_suspicious`, yet
processing it leaves the session unflagged: `handle_webhook` never calls
`is_suspicious`. -/
theorem url_message_not_flagged :
    (processMessage ("https://qq.zz".data) "G" freshSession).1.is_scam = false ∧
      is_suspicious ("https://qq.zz".data) = true := by
  decide

/-- Claim C3, amended: `is_suspicious` does treat a URL or phone-shaped
token as suspicious, but the handler never invokes it; a session is
flagged only by a lexical trigger match, so a message with no matched
trigger leaves an unflagged session unflagged. -/
theorem structural_signal_unused (msg : List Char) (gen : String) (s : Session)
    (hk : get_matched_keywords msg = []) (hs : s.is_scam = false) :
    (processMessage msg gen s).1.is_scam = false ∧
      ((!(findall linkMatch msg).isEmpty || !(findall phoneMatch msg).isEmpty) = true →
        is_suspicious msg = true) := by
  constructor
  · simp [processMessage, hk, detect_scam_via_llm, hs]
  · intro h
    by_cases ha : SCAM_TRIGGERS.any (fun trig => containsSub trig.data (msg.map Char.toLower))
    · simp [is_suspicious, ha]
    · simp [is_suspicious, ha, h]

/-- Witness for the amended claim C3 at a concrete URL-only message. -/
theorem structural_signal_unused_witness :
    get_matched_keywords ("https://tt.qq".data) = [] ∧
      freshSession.is_scam = false ∧
      (processMessage ("https://tt.qq".data) "G" freshSession).1.is_scam = false ∧
      is_suspicious ("https://tt.qq".data) = true :=
  ⟨by decide, rfl,
    (structural_signal_unused ("https://tt.qq".data) "G" freshSession (by decide) rfl).1,
    (structural_signal_unused ("https://tt.qq".data) "G" freshSession (by decide) rfl).2
      (by decide)⟩

/-- Claim C4, counterexample.  With a single-credential pool and a
transiently failing backend, `generate_persona_reply` makes 2 attempts
(more than the pool size) and sleeps twice for retries: a failure with
one key is not terminal, the code waits 2 seconds and retries. -/
theorem single_key_failure_retried :
    (generate_persona_reply true 1 (fun _ => GenOutcome.errTransient) 0 "").attempts = 2 ∧
      (generate_persona_reply true 1 (fun _ => GenOutcome.errTransient) 0 "").sleeps = 2 := by
  decide

/-- Claim C4, amended: the number of attempts is bounded by the fixed
constant 2 (`for attempt in range(2)`), not by the pool size; with
exactly one credential a transient failure is retried (after a 2-second
sleep) before the fallback is used. -/
theorem generation_attempts_bounded_by_two (cfg : Bool) (pool : Nat)
    (outcomes : Nat → GenOutcome) (fi : Nat) (last : String) :
    (generate_persona_reply cfg pool outcomes fi last).attempts ≤ 2 ∧
      (cfg = true → pool = 1 → outcomes 0 = GenOutcome.errTransient →
        outcomes 1 = GenOutcome.errTransient →
        generate_persona_reply cfg pool outcomes fi last = ⟨fallbackChoice fi, 2, 2⟩) := by
  constructor
  · cases cfg with
    | false => simp [generate_persona_reply]
    | true => simpa [generate_persona_reply] using genLoop_att_le pool outcomes last fi 2 0 0 0
  · intro hc hp h0 h1
    subst hc hp
    simp [generate_persona_reply, genLoop, h0, h1]

/-- Witness for the amended claim C4: one key, both attempts transiently
failing. -/
theorem generation_attempts_bounded_by_two_witness :
    (generate_persona_reply true 1 (fun _ => GenOutcome.errTransient) 0 "").attempts ≤ 2 ∧
      generate_persona_reply true 1 (fun _ => GenOutcome.errTransient) 0 "" =
        ⟨fallbackChoice 0, 2, 2⟩ :=
  ⟨(generation_attempts_bounded_by_two true 1 (fun _ => GenOutcome.errTransient) 0 "").1,
    (generation_attempts_bounded_by_two true 1 (fun _ => GenOutcome.errTransient) 0 "").2
      rfl rfl rfl rfl⟩

/-- Claim C5: the scam flag is monotonic — once a session is flagged,
every state reached by processing further messages is still flagged. -/
theorem scam_flag_monotonic (gen : String) (msgs : List (List Char)) (s : Session)
    (h : s.is_scam = true) : ∀ s' ∈ runTrace gen msgs s, s'.is_scam = true := by
  induction msgs generalizing s with
  | nil => intro s' hs'; simp [runTrace] at hs'
  | cons m rest ih =>
    intro s' hs'
    simp only [runTrace] at hs'
    rcases List.mem_cons.mp hs' with rfl | hmem
    · exact processMessage_is_scam_mono m gen s h
    · exact ih (processMessage m gen s).1 (processMessage_is_scam_mono m gen s h) s' hmem

/-- Witness for claim C5 on a concrete flagged session and message list. -/
theorem scam_flag_monotonic_witness :
    (Session.mk true 0 freshIntel).is_scam = true ∧
      ∀ s' ∈ runTrace "G" ["hi".data] (Session.mk true 0 freshIntel), s'.is_scam = true :=
  ⟨rfl, scam_flag_monotonic "G" ["hi".data] (Session.mk true 0 freshIntel) rfl⟩

/-- Claim C6: extraction is idempotent — scanning the same text again on
the state produced by the first scan changes nothing and reports that
nothing new was found. -/
theorem scan_for_intel_idempotent (t : List Char) (i : Intel) :
    scan_for_intel t (scan_for_intel t i).1 = ((scan_for_intel t i).1, false) := by
  simp [scan_for_intel, addItems_twice]

/-- Claim C7: when the model is unconfigured or both attempts raise, the
reply is a non-empty string drawn from the fixed fallback pool (and the
embedded `generate_persona_reply` is a total function — no error is ever
propagated to the endpoint). -/
theorem fallback_on_generation_failure (cfg : Bool) (pool : Nat)
    (outcomes : Nat → GenOutcome) (fi : Nat) (last : String)
    (h : cfg = false ∨ (isErr (outcomes 0) = true ∧ isErr (outcomes 1) = true)) :
    (generate_persona_reply cfg pool outcomes fi last).reply ∈ FALLBACK_REPLIES ∧
      (generate_persona_reply cfg pool outcomes fi last).reply ≠ "" := by
  have base : ∀ j, fallbackChoice j ∈ FALLBACK_REPLIES ∧ fallbackChoice j ≠ "" :=
    fun j => ⟨fallbackChoice_mem j, FALLBACK_REPLIES_nonempty _ (fallbackChoice_mem j)⟩
  rcases h with hc | ⟨h0, h1⟩
  · subst hc
    simpa [generate_persona_reply] using base fi
  · cases cfg with
    | false => simpa [generate_persona_reply] using base fi
    | true =>
      cases o0 : outcomes 0 with
      | ok text => rw [o0] at h0; simp [isErr] at h0
      | errOther => simpa [generate_persona_reply, genLoop, o0] using base fi
      | errTransient =>
        cases o1 : outcomes 1 with
        | ok text => rw [o1] at h1; simp [isErr] at h1
        | errOther =>
          by_cases hp : 1 < pool <;>
            simpa [generate_persona_reply, genLoop, o0, o1, hp] using base fi
        | errTransient =>
          by_cases hp : 1 < pool <;>
            simpa [generate_persona_reply, genLoop, o0, o1, hp] using base fi

/-- Witness for claim C7: both attempts fail transiently. -/
theorem fallback_on_generation_failure_witness :
    ((true : Bool) = false ∨
        (isErr ((fun _ => GenOutcome.errTransient) 0) = true ∧
          isErr ((fun _ => GenOutcome.errTransient) 1) = true)) ∧
      ((generate_persona_reply true 3 (fun _ => GenOutcome.errTransient) 7 "x").reply ∈
          FALLBACK_REPLIES ∧
        (generate_persona_reply true 3 (fun _ => GenOutcome.errTransient) 7 "x").reply ≠ "") :=
  ⟨Or.inr ⟨rfl, rfl⟩,
    fallback_on_generation_failure true 3 (fun _ => GenOutcome.errTransient) 7 "x"
      (Or.inr ⟨rfl, rfl⟩)⟩

/-- Claim C8: a request whose access header does not match the shared
secret is rejected with a 401 client error and the session store is
returned unchanged — no record is created and no session is mutated. -/
theorem unauthorized_rejected (tok key : Option String) (sessions : List (String × Session))
    (sid : String) (msg : List Char) (gen : String) (h : key ≠ tok) :
    handle_webhook tok key sessions sid msg gen = (sessions, Except.error 401) := by
  simp [handle_webhook, h]

/-- Witness for claim C8 with a concrete wrong header. -/
theorem unauthorized_rejected_witness :
    (some "wrong" : Option String) ≠ some "secret" ∧
      handle_webhook (some "secret") (some "wrong") [] "sid1" ("hi".data) "G" =
        ([], Except.error 401) :=
  ⟨by decide,
    unauthorized_rejected (some "secret") (some "wrong") [] "sid1" ("hi".data) "G" (by decide)⟩

/-- Claim C9: the documented scenario — on a fresh session the text
yields `phoneNumbers == ["9876543210"]`, `upiIds == ["scammer@upi"]` and
a flagged session. -/
theorem scenario_extraction :
    (processMessage ("Your account is blocked, send OTP to 9876543210 and pay to scammer@upi".data)
        "G" freshSession).1.intel.phoneNumbers = ["9876543210"] ∧
      (processMessage ("Your account is blocked, send OTP to 9876543210 and pay to scammer@upi".data)
        "G" freshSession).1.intel.upiIds = ["scammer@upi"] ∧
      (processMessage ("Your account is blocked, send OTP to 9876543210 and pay to scammer@upi".data)
        "G" freshSession).1.is_scam = true := by
  decide

/-- Claim C10: when the session is still unflagged after classification,
the reply is exactly the fixed string and the generation capability is
not invoked. -/
theorem unflagged_fixed_reply (msg : List Char) (gen : String) (s : Session)
    (h : (processMessage msg gen s).1.is_scam = false) :
    (processMessage msg gen s).2.reply = "I am sorry, who is this message for?" ∧
      (processMessage msg gen s).2.genInvoked = false := by
  have hr : (processMessage msg gen s).2.reply =
      (if (processMessage msg gen s).1.is_scam then gen
       else "I am sorry, who is this message for?") := rfl
  have hg : (processMessage msg gen s).2.genInvoked = (processMessage msg gen s).1.is_scam := rfl
  rw [hr, hg, h]
  simp

/-- Witness for claim C10 on a concrete harmless message. -/
theorem unflagged_fixed_reply_witness :
    (processMessage ("hello".data) "G" freshSession).1.is_scam = false ∧
      ((processMessage ("hello".data) "G" freshSession).2.reply =
          "I am sorry, who is this message for?" ∧
        (processMessage ("hello".data) "G" freshSession).2.genInvoked = false) :=
  ⟨by decide, unflagged_fixed_reply ("hello".data) "G" freshSession (by decide)⟩

end Honeypot
